import Mathlib

/-!
Verification development for the PropInsight error-handling and resilience
subsystem (`src/data_collection/error_handler.py`): error classification,
circuit breaker, retry-with-backoff, error ledger statistics, and the
performance monitor.

Modelling conventions:
* Python strings are Lean `String`s; lower-casing and substring search are
  modelled on the underlying character lists.
* Wall-clock timestamps are natural numbers counting whole seconds.
  `timedelta.seconds` of a non-negative delta of `e` whole seconds is
  `e % 86400` (Python discards whole days in the `.seconds` field).
* Python floats (delays, durations) are modelled as rationals.
* Exceptions are values of `PyError`; an `except (C1, C2)` clause is
  modelled as a boolean predicate on the exception's class.
* A decorated/stateful computation is modelled as an explicit function from
  inputs (including a pre-state) to outputs plus post-state; the retry
  wrapper additionally returns the ordered trace of its observable effects
  (operation invocations, ledger log calls, sleeps).
-/

/-- Error severity levels (`ErrorSeverity` in the source). -/
inductive ErrorSeverity
  | low
  | medium
  | high
  | critical
deriving DecidableEq, Repr

/-- Error categories (`ErrorCategory` in the source). -/
inductive ErrorCategory
  | network
  | rate_limit
  | authentication
  | parsing
  | validation
  | resource
  | unknown
deriving DecidableEq, BEq, Repr

/-- Model of a Python exception class, as far as the error handler can
observe it: either the distinguished `CircuitBreakerOpenError` class or some
other `Exception` subclass identified by name.  Every class modelled here is
a subclass of Python's `Exception`. -/
inductive ErrClass
  | circuitBreakerOpen
  | other (name : String)
deriving DecidableEq, Repr

/-- Model of a raised Python exception: its `str(error)` message, its
`type(error).__name__`, and its class for `except`-clause matching. -/
structure PyError where
  msg : String
  typeName : String
  cls : ErrClass
deriving DecidableEq, Repr

/-- Characterwise lower-casing, the model of Python's `str.lower()` for the
ASCII texts the classifier handles. -/
def lowerList (l : List Char) : List Char := l.map Char.toLower

/-- Does the character list start with the given pattern? -/
def startsWithChars : List Char → List Char → Bool
  | [], _ => true
  | _ :: _, [] => false
  | p :: ps, c :: cs => p == c && startsWithChars ps cs

/-- Does the pattern occur as a contiguous substring?  Model of Python's
`pattern in text`. -/
def occursIn (p : List Char) : List Char → Bool
  | [] => p.isEmpty
  | c :: rest => startsWithChars p (c :: rest) || occursIn p rest

/-- Does the pattern occur in the lower-cased message or in the lower-cased
type name?  Model of `if pattern in error_msg or pattern in error_type`. -/
def patternHit (msg ty : List Char) (p : String) : Bool :=
  occursIn p.data msg || occursIn p.data ty

/-- Keyword list for `ErrorCategory.NETWORK` (source lines 172-175). -/
def networkPatterns : List String :=
  ["connection", "timeout", "network", "dns", "socket",
   "unreachable", "refused", "reset"]

/-- Keyword list for `ErrorCategory.RATE_LIMIT` (source lines 176-179). -/
def rateLimitPatterns : List String :=
  ["rate limit", "too many requests", "429", "throttle",
   "quota exceeded", "limit exceeded"]

/-- Keyword list for `ErrorCategory.AUTHENTICATION` (source lines 180-183). -/
def authPatterns : List String :=
  ["unauthorized", "forbidden", "401", "403", "authentication",
   "invalid credentials", "access denied"]

/-- Keyword list for `ErrorCategory.PARSING` (source lines 184-187). -/
def parsingPatterns : List String :=
  ["parse", "json", "xml", "html", "decode", "encoding",
   "malformed", "invalid format"]

/-- Keyword list for `ErrorCategory.VALIDATION` (source lines 188-191). -/
def validationPatterns : List String :=
  ["validation", "invalid", "missing", "required",
   "constraint", "format error"]

/-- Keyword list for `ErrorCategory.RESOURCE` (source lines 192-195). -/
def resourcePatterns : List String :=
  ["memory", "disk", "cpu", "resource", "limit",
   "out of", "insufficient"]

/-- The table `self.error_patterns`: the category/keyword table in Python dict
insertion order (source lines 171-196). -/
def errorPatterns : List (ErrorCategory × List String) :=
  [(ErrorCategory.network, networkPatterns),
   (ErrorCategory.rate_limit, rateLimitPatterns),
   (ErrorCategory.authentication, authPatterns),
   (ErrorCategory.parsing, parsingPatterns),
   (ErrorCategory.validation, validationPatterns),
   (ErrorCategory.resource, resourcePatterns)]

/-- The nested loop of `ErrorHandler.categorize_error` (source lines
236-241): scan the pattern table in order, return the first category one of
whose keywords occurs in the message or the type name, else `UNKNOWN`. -/
def findCategory (msg ty : List Char) : List (ErrorCategory × List String) → ErrorCategory
  | [] => ErrorCategory.unknown
  | (cat, pats) :: rest =>
    if pats.any (patternHit msg ty) then cat else findCategory msg ty rest

/-- Model of `ErrorHandler.categorize_error` (source lines 223-241): lower-case the
error message and the error type name, then scan the pattern table. -/
def categorize_error (e : PyError) : ErrorCategory :=
  findCategory (lowerList e.msg.data) (lowerList e.typeName.data) errorPatterns

/-- Model of `ErrorHandler.determine_severity` (source lines 243-273): a fixed lookup
from the error's category to a severity.  The `context` parameter of the
source function is unused there and omitted here. -/
def determine_severity (e : PyError) : ErrorSeverity :=
  match categorize_error e with
  | ErrorCategory.authentication => ErrorSeverity.critical
  | ErrorCategory.resource => ErrorSeverity.high
  | ErrorCategory.network => ErrorSeverity.medium
  | ErrorCategory.rate_limit => ErrorSeverity.medium
  | ErrorCategory.parsing => ErrorSeverity.low
  | ErrorCategory.validation => ErrorSeverity.low
  | ErrorCategory.unknown => ErrorSeverity.medium

/-- The fixed priority order of categories stated by the spec (network,
rate_limit, authentication, parsing, validation, resource). -/
def specPriorityOrder : List ErrorCategory :=
  [ErrorCategory.network, ErrorCategory.rate_limit, ErrorCategory.authentication,
   ErrorCategory.parsing, ErrorCategory.validation, ErrorCategory.resource]

/-- Keywords of one category, for the spec-side classifier. -/
def categoryKeywords : ErrorCategory → List String
  | ErrorCategory.network => networkPatterns
  | ErrorCategory.rate_limit => rateLimitPatterns
  | ErrorCategory.authentication => authPatterns
  | ErrorCategory.parsing => parsingPatterns
  | ErrorCategory.validation => validationPatterns
  | ErrorCategory.resource => resourcePatterns
  | ErrorCategory.unknown => []

/-- Does any keyword of the category occur in the lower-cased message or
type name of the error? -/
def specCategoryMatches (e : PyError) (c : ErrorCategory) : Bool :=
  (categoryKeywords c).any
    (patternHit (lowerList e.msg.data) (lowerList e.typeName.data))

/-- Spec-side classifier, written from the spec's words for claim C7: test
the categories in the fixed priority order; the first category with any
matching substring wins; if none matches, return `unknown`. -/
def specClassify (e : PyError) : ErrorCategory :=
  (specPriorityOrder.find? (specCategoryMatches e)).getD ErrorCategory.unknown

/-- A sample error matching keywords of several categories: "timeout"
(network), "invalid format" (parsing) and "invalid" (validation). -/
def eTwoCats : PyError :=
  ⟨"timeout while reading: invalid format", "Exception", ErrClass.other "Exception"⟩

/-- A sample error matching no category keyword at all. -/
def eNoCat : PyError := ⟨"all good here", "Widget", ErrClass.other "Widget"⟩

/-- A sample network-classified error. -/
def eNet : PyError := ⟨"connection refused", "ConnectionError", ErrClass.other "ConnectionError"⟩

/-- A sample parsing-classified error. -/
def eParse : PyError := ⟨"json decode error", "JSONDecodeError", ErrClass.other "JSONDecodeError"⟩

example : categorize_error eNet = ErrorCategory.network := by decide
example : categorize_error eParse = ErrorCategory.parsing := by decide
example : categorize_error eTwoCats = ErrorCategory.network := by decide
example : categorize_error eNoCat = ErrorCategory.unknown := by decide
example : determine_severity eNet = ErrorSeverity.medium := by decide

/-- The three breaker states (`self.state` strings `"closed"`, `"open"`,
`"half-open"` in the source; `opened` models the string `"open"`). -/
inductive BreakerState
  | closed
  | opened
  | halfOpen
deriving DecidableEq, Repr

/-- Model of `CircuitBreaker` instance state (source lines 81-94).  Timestamps are
whole seconds. -/
structure CircuitBreaker where
  failure_threshold : Nat
  recovery_timeout : Nat
  failure_count : Nat
  last_failure_time : Option Nat
  state : BreakerState
deriving DecidableEq, Repr

/-- Model of `CircuitBreaker.__init__`: `failure_count = 0`, `last_failure_time =
None`, `state = "closed"`. -/
def CircuitBreaker.init (failure_threshold recovery_timeout : Nat) : CircuitBreaker :=
  ⟨failure_threshold, recovery_timeout, 0, none, BreakerState.closed⟩

/-- Model of `CircuitBreaker._should_attempt_reset` (source lines 125-129).  The
source computes `(datetime.now() - self.last_failure_time).seconds`, and
Python's `timedelta.seconds` field discards whole days, so for a delta of
`now - t` whole seconds the compared quantity is `(now - t) % 86400`. -/
def CircuitBreaker.should_attempt_reset (s : CircuitBreaker) (now : Nat) : Bool :=
  match s.last_failure_time with
  | none => true
  | some t => decide (s.recovery_timeout ≤ (now - t) % 86400)

/-- Model of `CircuitBreaker._on_success` (source lines 131-134). -/
def CircuitBreaker.on_success (s : CircuitBreaker) : CircuitBreaker :=
  { s with failure_count := 0, state := BreakerState.closed }

/-- Model of `CircuitBreaker._on_failure` (source lines 136-142): increment the
failure count, record the failure time, and open the breaker when the
incremented count reaches the threshold (otherwise the state is left as it
was). -/
def CircuitBreaker.on_failure (s : CircuitBreaker) (now : Nat) : CircuitBreaker :=
  let s2 := { s with failure_count := s.failure_count + 1, last_failure_time := some now }
  if s2.failure_threshold ≤ s2.failure_count then { s2 with state := BreakerState.opened } else s2

/-- What the wrapped operation would do if it were invoked: return a value
or throw an exception. -/
inductive OpOutcome
  | ok (v : Nat)
  | throws (e : PyError)
deriving DecidableEq, Repr

/-- Observable outcome of one `CircuitBreaker.call`: a returned value or a
raised exception. -/
inductive CallOutcome
  | returned (v : Nat)
  | raised (e : PyError)
deriving DecidableEq, Repr

/-- The `CircuitBreakerOpenError("Circuit breaker is open")` exception
raised by an open breaker (source lines 115, 144-146).  Its class is
distinct from every wrapped-operation exception class but it is still a
subclass of Python's `Exception`. -/
def circuitBreakerOpenError : PyError :=
  ⟨"Circuit breaker is open", "CircuitBreakerOpenError", ErrClass.circuitBreakerOpen⟩

/-- Result of one `CircuitBreaker.call`: the outcome, the breaker state
after the call, and whether the wrapped operation was actually invoked. -/
structure CallResult where
  outcome : CallOutcome
  post : CircuitBreaker
  invoked : Bool
deriving DecidableEq, Repr

/-- The `try`/`except` body of `CircuitBreaker.call` (source lines
117-123): invoke the operation, then `_on_success` or `_on_failure`. -/
def CircuitBreaker.run_protected (s : CircuitBreaker) (now : Nat) (op : OpOutcome) : CallResult :=
  match op with
  | OpOutcome.ok v => ⟨CallOutcome.returned v, s.on_success, true⟩
  | OpOutcome.throws e => ⟨CallOutcome.raised e, s.on_failure now, true⟩

/-- Model of `CircuitBreaker.call` (source lines 96-123): when open, either move to
half-open (if the reset check passes) and let one probe through, or raise
`CircuitBreakerOpenError` without invoking the operation. -/
def CircuitBreaker.call (s : CircuitBreaker) (now : Nat) (op : OpOutcome) : CallResult :=
  if s.state = BreakerState.opened then
    if s.should_attempt_reset now then
      CircuitBreaker.run_protected { s with state := BreakerState.halfOpen } now op
    else ⟨CallOutcome.raised circuitBreakerOpenError, s, false⟩
  else s.run_protected now op

/-- Fold a sequence of calls whose wrapped operation always throws `e`, at
the given successive timestamps. -/
def failCalls (s : CircuitBreaker) (e : PyError) (ts : List Nat) : CircuitBreaker :=
  ts.foldl (fun b t => (b.call t (OpOutcome.throws e)).post) s

/-- One step of an arbitrary call history: a call at some time whose
operation (if invoked) behaves as given. -/
def breakerStep (s : CircuitBreaker) (ev : Nat × OpOutcome) : CircuitBreaker :=
  (s.call ev.1 ev.2).post

/-- The breaker state reached from a fresh breaker by an arbitrary call
history. -/
def breakerRun (th timeout : Nat) (tr : List (Nat × OpOutcome)) : CircuitBreaker :=
  tr.foldl breakerStep (CircuitBreaker.init th timeout)

/-- A breaker with `failure_threshold = 1`, `recovery_timeout = 60` whose
wrapped operation failed at time 0, opening it (claim C3's scenario). -/
def c3OpenBreaker : CircuitBreaker :=
  ((CircuitBreaker.init 1 60).call 0 (OpOutcome.throws eNet)).post

/-- The state invariant of claim C9: whenever the breaker is open or
half-open, a failure time is recorded and the failure count has reached the
threshold. -/
def BreakerInv (s : CircuitBreaker) : Prop :=
  (s.state = BreakerState.opened ∨ s.state = BreakerState.halfOpen) →
    s.last_failure_time ≠ none ∧ s.failure_threshold ≤ s.failure_count

example :
    (CircuitBreaker.call (CircuitBreaker.init 1 60) 5 (OpOutcome.throws eNet)).post.state
      = BreakerState.opened := by decide
example :
    ((CircuitBreaker.init 1 60).call 5 (OpOutcome.throws eNet)).post.call 10 (OpOutcome.ok 3)
      = ⟨CallOutcome.raised circuitBreakerOpenError,
         ⟨1, 60, 1, some 5, BreakerState.opened⟩, false⟩ := by decide

/-- Model of `RetryConfig` (source lines 63-72).  The exception tuples
`retry_on_exceptions` and `stop_on_exceptions` are modelled as boolean
predicates on the exception class (`isinstance` matching). -/
structure RetryConfig where
  max_attempts : Nat
  base_delay : ℚ
  max_delay : ℚ
  exponential_base : ℚ
  jitter : Bool
  retry_on_exceptions : ErrClass → Bool
  stop_on_exceptions : ErrClass → Bool

/-- The source's default `RetryConfig()`: 3 attempts, base delay 1.0, max
delay 300.0, exponential base 2.0, jitter on, `retry_on_exceptions =
(Exception,)` (matches every modelled class, all being `Exception`
subclasses), `stop_on_exceptions = ()` (matches nothing). -/
def defaultRetryConfig : RetryConfig :=
  { max_attempts := 3, base_delay := 1, max_delay := 300, exponential_base := 2,
    jitter := true,
    retry_on_exceptions := fun _ => true,
    stop_on_exceptions := fun _ => false }

/-- The pre-jitter delay computed after a failed attempt (source lines
406-409): `min(base_delay * exponential_base ** (attempt - 1), max_delay)`. -/
def computeDelay (cfg : RetryConfig) (attempt : Nat) : ℚ :=
  min (cfg.base_delay * cfg.exponential_base ^ (attempt - 1)) cfg.max_delay

/-- The jitter step (source lines 412-414): when jitter is enabled the delay
is multiplied by `0.5 + random.random() * 0.5`, where `r` is the value drawn
from `random.random()` (a real in `[0, 1)`). -/
def applyJitter (cfg : RetryConfig) (d : ℚ) (r : ℚ) : ℚ :=
  if cfg.jitter then d * (1/2 + r * (1/2)) else d

/-- What one invocation of the wrapped operation does: return a value or
raise an exception. -/
inductive ExecResult
  | ok (v : Nat)
  | err (e : PyError)
deriving DecidableEq, Repr

/-- An observable effect of the retry wrapper, in order: an invocation of
the wrapped operation (with its 1-indexed attempt number), a
`log_error` call to the ledger (with the category and severity it logs),
or a `time.sleep` of the given duration. -/
inductive RetryEvent
  | invoke (attempt : Nat)
  | logged (cat : ErrorCategory) (sev : ErrorSeverity)
  | slept (d : ℚ)
deriving DecidableEq, Repr

/-- Final outcome of the retry wrapper: a returned value, a raised
exception, or the implicit `None` return when the loop body never runs
(`max_attempts < 1`). -/
inductive RetryOutcome
  | returned (v : Nat)
  | raised (e : PyError)
  | fellThrough
deriving DecidableEq, Repr

/-- The `for attempt in range(1, max_attempts + 1)` loop of
`retry_with_backoff.wrapper` (source lines 376-420), with `a` the current
attempt number and `r + 1` the number of attempts still allowed (so `r = 0`
exactly on the last attempt, where no sleep happens).  `op k` is the
behaviour of the wrapped operation on its `k`-th invocation; `rand k` is
the `random.random()` value drawn after attempt `k`.  Exhausting the loop
re-raises the last retryable exception (source lines 419-420). -/
def retryGo (cfg : RetryConfig) (op : Nat → ExecResult) (rand : Nat → ℚ) :
    Nat → Nat → Option PyError → List RetryEvent × RetryOutcome
  | _, 0, last =>
    ([], match last with
         | some e => RetryOutcome.raised e
         | none => RetryOutcome.fellThrough)
  | a, r + 1, _ =>
    match op a with
    | ExecResult.ok v => ([RetryEvent.invoke a], RetryOutcome.returned v)
    | ExecResult.err e =>
      if cfg.stop_on_exceptions e.cls then
        ([RetryEvent.invoke a, RetryEvent.logged (categorize_error e) ErrorSeverity.critical],
         RetryOutcome.raised e)
      else if cfg.retry_on_exceptions e.cls then
        let lg := RetryEvent.logged (categorize_error e) (determine_severity e)
        if r = 0 then
          let rest := retryGo cfg op rand (a + 1) r (some e)
          (RetryEvent.invoke a :: lg :: rest.1, rest.2)
        else
          let d := applyJitter cfg (computeDelay cfg a) (rand a)
          let rest := retryGo cfg op rand (a + 1) r (some e)
          (RetryEvent.invoke a :: lg :: RetryEvent.slept d :: rest.1, rest.2)
      else
        ([RetryEvent.invoke a], RetryOutcome.raised e)

/-- A full run of the decorated function: attempts start at 1 with
`max_attempts` attempts allowed and no last exception. -/
def retryRun (cfg : RetryConfig) (op : Nat → ExecResult) (rand : Nat → ℚ) :
    List RetryEvent × RetryOutcome :=
  retryGo cfg op rand 1 cfg.max_attempts none

/-- Contribution of one event to the invocation count. -/
def invokeWeight : RetryEvent → Nat
  | RetryEvent.invoke _ => 1
  | _ => 0

/-- Contribution of one event to the sleep count. -/
def sleepWeight : RetryEvent → Nat
  | RetryEvent.slept _ => 1
  | _ => 0

/-- Number of operation invocations in an event trace. -/
def numInvocations : List RetryEvent → Nat
  | [] => 0
  | ev :: rest => invokeWeight ev + numInvocations rest

/-- Number of sleeps in an event trace. -/
def numSleeps : List RetryEvent → Nat
  | [] => 0
  | ev :: rest => sleepWeight ev + numSleeps rest

/-- Expected event trace of a run whose operation fails with a retryable
error on every attempt, starting at attempt `a` with `r` attempts left:
each attempt is invoked and logged, and every attempt except the last is
followed by exactly one (jittered, capped) sleep. -/
def failTraceFrom (cfg : RetryConfig) (rand : Nat → ℚ) (es : Nat → PyError) :
    Nat → Nat → List RetryEvent
  | _, 0 => []
  | a, r + 1 =>
    let lg := RetryEvent.logged (categorize_error (es a)) (determine_severity (es a))
    if r = 0 then [RetryEvent.invoke a, lg]
    else
      RetryEvent.invoke a :: lg ::
        RetryEvent.slept (applyJitter cfg (computeDelay cfg a) (rand a)) ::
        failTraceFrom cfg rand es (a + 1) r

example :
    (retryRun defaultRetryConfig (fun _ => ExecResult.err eNet) (fun _ => 0)).2
      = RetryOutcome.raised eNet := by decide
example :
    numInvocations (retryRun defaultRetryConfig (fun _ => ExecResult.err eNet) (fun _ => 0)).1
      = 3 := by decide
example :
    numSleeps (retryRun defaultRetryConfig (fun _ => ExecResult.err eNet) (fun _ => 0)).1
      = 2 := by decide
example :
    (retryRun defaultRetryConfig (fun _ => ExecResult.err eNet) (fun _ => 0)).1
      = failTraceFrom defaultRetryConfig (fun _ => 0) (fun _ => eNet) 1 3 := rfl

/-- Model of `ErrorContext` (source lines 53-61), restricted to the fields the
modelled operations read. -/
structure ErrorContext where
  scraper_name : String
  function_name : String
  attempt_number : Nat
deriving DecidableEq, Repr

/-- Mutable state of an `ErrorHandler` (source lines 155-165):
`error_stats` is the per-scraper, per-category error counter table (a dict
of dicts, modelled as insertion-ordered association lists) and
`circuit_breakers` is the per-service breaker registry. -/
structure ErrorHandlerState where
  error_stats : List (String × List (ErrorCategory × Nat))
  circuit_breakers : List (String × CircuitBreaker)
deriving DecidableEq, Repr

/-- A fresh `ErrorHandler()`: empty statistics, no breakers. -/
def ErrorHandler.initState : ErrorHandlerState := ⟨[], []⟩

/-- The update `scraper_stats[category.value] = scraper_stats.get(category.value, 0) + 1`
(source line 292) on the inner per-category dict. -/
def bumpCat : List (ErrorCategory × Nat) → ErrorCategory → List (ErrorCategory × Nat)
  | [], c => [(c, 1)]
  | (c0, n) :: rest, c =>
    if c0 = c then (c0, n + 1) :: rest else (c0, n) :: bumpCat rest c

/-- The update `self.error_stats.setdefault(context.scraper_name, ...)` followed by the
per-category increment (source lines 290-292). -/
def bumpStats : List (String × List (ErrorCategory × Nat)) → String → ErrorCategory →
    List (String × List (ErrorCategory × Nat))
  | [], name, c => [(name, [(c, 1)])]
  | (n0, inner) :: rest, name, c =>
    if n0 = name then (n0, bumpCat inner c) :: rest
    else (n0, inner) :: bumpStats rest name c

/-- The structured record a `log_error` call emits, restricted to the
fields the claims mention. -/
structure LogRecord where
  scraper : String
  category : ErrorCategory
  severity : ErrorSeverity
deriving DecidableEq, Repr

/-- Model of `ErrorHandler.log_error` (source lines 275-317): derive the severity
when none is given, classify the error, increment the per-scraper
per-category counter, and emit one structured record at the level mapped
from the severity. -/
def ErrorHandler.log_error (st : ErrorHandlerState) (e : PyError) (ctx : ErrorContext)
    (sev : Option ErrorSeverity) : ErrorHandlerState × LogRecord :=
  let severity := sev.getD (determine_severity e)
  let category := categorize_error e
  ({ st with error_stats := bumpStats st.error_stats ctx.scraper_name category },
   ⟨ctx.scraper_name, category, severity⟩)

/-- The snapshot returned by `ErrorHandler.get_error_statistics` (source
lines 333-352): total error count, per-scraper breakdown, and every
breaker's current state.  The `generated_at` wall-clock field is omitted. -/
structure ErrorStatistics where
  total_errors : Nat
  by_scraper : List (String × List (ErrorCategory × Nat))
  circuit_breaker_states : List (String × BreakerState)
deriving DecidableEq, Repr

/-- Model of `ErrorHandler.get_error_statistics` (source lines 333-352).  The method
only reads the handler's state, so its translation returns the snapshot
together with the unchanged state. -/
def ErrorHandler.get_error_statistics (st : ErrorHandlerState) :
    ErrorStatistics × ErrorHandlerState :=
  (⟨(st.error_stats.map (fun p => (p.2.map (fun q => q.2)).sum)).sum,
    st.error_stats,
    st.circuit_breakers.map (fun p => (p.1, p.2.state))⟩,
   st)

/-- The ledger state after logging `eNet` three times and `eParse` twice
for scraper `"X"`, starting from a fresh handler (claim C8's scenario). -/
def c8Scenario : ErrorHandlerState :=
  let ctx : ErrorContext := ⟨"X", "fetch", 1⟩
  let step := fun (st : ErrorHandlerState) (e : PyError) =>
    (ErrorHandler.log_error st e ctx none).1
  step (step (step (step (step ErrorHandler.initState eNet) eNet) eNet) eParse) eParse

example :
    (ErrorHandler.get_error_statistics c8Scenario).1.by_scraper
      = [("X", [(ErrorCategory.network, 3), (ErrorCategory.parsing, 2)])] := by decide
example : (ErrorHandler.get_error_statistics c8Scenario).1.total_errors = 5 := by decide

/-- One recorded operation metric (`PerformanceMonitor.record_operation`
appends one of these; source lines 494-500).  Extra keyword metrics are
omitted. -/
structure OperationMetric where
  timestamp : Nat
  operation : String
  duration : ℚ
  success : Bool
deriving DecidableEq, Repr

/-- Mutable state of a `PerformanceMonitor` (source lines 473-476). -/
structure PerformanceMonitorState where
  metrics : List (String × List OperationMetric)
deriving DecidableEq, Repr

/-- Append a metric to one scraper's list inside the table, creating the
entry on first use. -/
def appendMetric : List (String × List OperationMetric) → String → OperationMetric →
    List (String × List OperationMetric)
  | [], name, m => [(name, [m])]
  | (n0, ms) :: rest, name, m =>
    if n0 = name then (n0, ms ++ [m]) :: rest
    else (n0, ms) :: appendMetric rest name m

/-- Model of `PerformanceMonitor.record_operation` (source lines 478-500). -/
def PerformanceMonitor.record_operation (st : PerformanceMonitorState)
    (scraper_name operation : String) (now : Nat) (duration : ℚ) (success : Bool) :
    PerformanceMonitorState :=
  ⟨appendMetric st.metrics scraper_name ⟨now, operation, duration, success⟩⟩

/-- One scraper's entry in the performance summary (source lines 527-534). -/
structure PerfSummaryEntry where
  total_operations : Nat
  success_rate : ℚ
  avg_duration : ℚ
  min_duration : ℚ
  max_duration : ℚ
  recent_operations : List OperationMetric
deriving DecidableEq, Repr

/-- The summary computed for one scraper with a non-empty operation list
(source lines 524-534): counts, success rate, min/avg/max duration, and the
last 10 operations verbatim. -/
def mkSummaryEntry (op0 : OperationMetric) (rest : List OperationMetric) : PerfSummaryEntry :=
  let ops := op0 :: rest
  let durations := ops.map (fun o => o.duration)
  let successCount : Nat := ops.countP (fun o => o.success)
  ⟨ops.length,
   (successCount : ℚ) / (ops.length : ℚ),
   durations.sum / (ops.length : ℚ),
   rest.foldl (fun a o => min a o.duration) op0.duration,
   rest.foldl (fun a o => max a o.duration) op0.duration,
   ops.drop (ops.length - 10)⟩

/-- The `for name, operations in scrapers.items()` loop of
`get_performance_summary` (source lines 520-534): scrapers with no recorded
operations are skipped (`if not operations: continue`). -/
def buildSummary : List (String × List OperationMetric) → List (String × PerfSummaryEntry)
  | [] => []
  | (_, []) :: rest => buildSummary rest
  | (n, op0 :: ops) :: rest => (n, mkSummaryEntry op0 ops) :: buildSummary rest

/-- Model of `PerformanceMonitor.get_performance_summary` (source lines 502-536):
for a named scraper the table is `{name: self.metrics.get(name, [])}`;
with no name the whole table is summarised. -/
def PerformanceMonitor.get_performance_summary (st : PerformanceMonitorState)
    (scraper_name : Option String) : List (String × PerfSummaryEntry) :=
  match scraper_name with
  | some n => buildSummary [(n, (st.metrics.lookup n).getD [])]
  | none => buildSummary st.metrics

example :
    PerformanceMonitor.get_performance_summary ⟨[]⟩ (some "unknown_source") = [] := rfl
example :
    PerformanceMonitor.get_performance_summary ⟨[("seen", [])]⟩ (some "seen") = [] := rfl

/-! ## Helper lemmas -/

theorem retryGo_succ (cfg : RetryConfig) (op : Nat → ExecResult) (rand : Nat → ℚ)
    (a r : Nat) (last : Option PyError) :
    retryGo cfg op rand a (r + 1) last =
      match op a with
      | ExecResult.ok v => ([RetryEvent.invoke a], RetryOutcome.returned v)
      | ExecResult.err e =>
        if cfg.stop_on_exceptions e.cls then
          ([RetryEvent.invoke a, RetryEvent.logged (categorize_error e) ErrorSeverity.critical],
           RetryOutcome.raised e)
        else if cfg.retry_on_exceptions e.cls then
          let lg := RetryEvent.logged (categorize_error e) (determine_severity e)
          if r = 0 then
            let rest := retryGo cfg op rand (a + 1) r (some e)
            (RetryEvent.invoke a :: lg :: rest.1, rest.2)
          else
            let d := applyJitter cfg (computeDelay cfg a) (rand a)
            let rest := retryGo cfg op rand (a + 1) r (some e)
            (RetryEvent.invoke a :: lg :: RetryEvent.slept d :: rest.1, rest.2)
        else
          ([RetryEvent.invoke a], RetryOutcome.raised e) := rfl

theorem failTraceFrom_succ (cfg : RetryConfig) (rand : Nat → ℚ) (es : Nat → PyError)
    (a r : Nat) :
    failTraceFrom cfg rand es a (r + 1) =
      (let lg := RetryEvent.logged (categorize_error (es a)) (determine_severity (es a))
       if r = 0 then [RetryEvent.invoke a, lg]
       else
         RetryEvent.invoke a :: lg ::
           RetryEvent.slept (applyJitter cfg (computeDelay cfg a) (rand a)) ::
           failTraceFrom cfg rand es (a + 1) r) := rfl

/-- An operation that fails with a retryable, non-stop error on every
attempt produces, from attempt `a` with `r + 1` attempts left, exactly the
expected trace table and finally re-raises the error of its last attempt. -/
theorem retry_always_fails (cfg : RetryConfig) (es : Nat → PyError) (op : Nat → ExecResult)
    (rand : Nat → ℚ)
    (hop : ∀ k, op k = ExecResult.err (es k))
    (hstop : ∀ k, cfg.stop_on_exceptions (es k).cls = false)
    (hretry : ∀ k, cfg.retry_on_exceptions (es k).cls = true) :
    ∀ r a last, retryGo cfg op rand a (r + 1) last
      = (failTraceFrom cfg rand es a (r + 1), RetryOutcome.raised (es (a + r))) := by
  intro r
  induction r with
  | zero =>
    intro a last
    rw [retryGo_succ, failTraceFrom_succ, hop a]
    simp [hstop a, hretry a, retryGo]
  | succ r ih =>
    intro a last
    rw [retryGo_succ, failTraceFrom_succ, hop a]
    have hx : a + 1 + r = a + (r + 1) := by omega
    simp [hstop a, hretry a, ih (a + 1) (some (es a)), hx]

theorem numInvocations_failTrace (cfg : RetryConfig) (rand : Nat → ℚ) (es : Nat → PyError) :
    ∀ r a, numInvocations (failTraceFrom cfg rand es a r) = r := by
  intro r
  induction r with
  | zero => intro a; rfl
  | succ r ih =>
    intro a
    rw [failTraceFrom_succ]
    rcases Nat.eq_zero_or_pos r with h | h
    · subst h; rfl
    · have hne : ¬(r = 0) := by omega
      simp only [hne, if_false]
      simp [numInvocations, invokeWeight, ih (a + 1)]
      omega

theorem numSleeps_failTrace (cfg : RetryConfig) (rand : Nat → ℚ) (es : Nat → PyError) :
    ∀ r a, numSleeps (failTraceFrom cfg rand es a r) = r - 1 := by
  intro r
  induction r with
  | zero => intro a; rfl
  | succ r ih =>
    intro a
    rw [failTraceFrom_succ]
    rcases Nat.eq_zero_or_pos r with h | h
    · subst h; rfl
    · have hne : ¬(r = 0) := by omega
      simp only [hne, if_false]
      simp [numSleeps, sleepWeight, ih (a + 1)]
      omega

/-! ## Claim theorems -/

/-- C1: for every retry policy with `max_attempts = N` (`N ≥ 1`) and every
operation that always fails with a retryable (non-stop) error, the retry
wrapper invokes the operation exactly `N` times, sleeps exactly `N - 1`
times and only between attempts (the trace equals `failTraceFrom`, whose
shape puts one sleep after every attempt except the last), and finally
re-raises the unwrapped error object of the final attempt. -/
theorem c1_retry_bound (cfg : RetryConfig) (N : Nat) (es : Nat → PyError)
    (op : Nat → ExecResult) (rand : Nat → ℚ)
    (hN : cfg.max_attempts = N) (hN1 : 1 ≤ N)
    (hop : ∀ k, op k = ExecResult.err (es k))
    (hstop : ∀ k, cfg.stop_on_exceptions (es k).cls = false)
    (hretry : ∀ k, cfg.retry_on_exceptions (es k).cls = true) :
    retryRun cfg op rand = (failTraceFrom cfg rand es 1 N, RetryOutcome.raised (es N)) ∧
    numInvocations (retryRun cfg op rand).1 = N ∧
    numSleeps (retryRun cfg op rand).1 = N - 1 := by
  obtain ⟨m, rfl⟩ : ∃ m, N = m + 1 := ⟨N - 1, by omega⟩
  have h := retry_always_fails cfg es op rand hop hstop hretry m 1 none
  have h1 : (1 : Nat) + m = m + 1 := by omega
  rw [h1] at h
  unfold retryRun
  rw [hN]
  refine ⟨h, ?_, ?_⟩
  · rw [h]; exact numInvocations_failTrace cfg rand es (m + 1) 1
  · rw [h]; exact numSleeps_failTrace cfg rand es (m + 1) 1

/-- Witness for C1 at the source's default policy (`max_attempts = 3`) and
an operation that always raises a network error. -/
theorem c1_retry_bound_witness :
    retryRun defaultRetryConfig (fun _ => ExecResult.err eNet) (fun _ => 0)
      = (failTraceFrom defaultRetryConfig (fun _ => 0) (fun _ => eNet) 1 3,
         RetryOutcome.raised eNet) ∧
    numInvocations (retryRun defaultRetryConfig (fun _ => ExecResult.err eNet) (fun _ => 0)).1
      = 3 ∧
    numSleeps (retryRun defaultRetryConfig (fun _ => ExecResult.err eNet) (fun _ => 0)).1
      = 2 :=
  c1_retry_bound defaultRetryConfig 3 (fun _ => eNet) (fun _ => ExecResult.err eNet)
    (fun _ => 0) rfl (by omega) (fun _ => rfl) (fun _ => rfl) (fun _ => rfl)

/-- C6: an operation whose failure matches `stop_on_exceptions` (the
non-retryable error types) is invoked exactly once regardless of
`max_attempts` (any value `≥ 1`): the error is logged once at `critical`
severity via the ledger and re-raised immediately, with no sleep. -/
theorem c6_non_retryable_short_circuit (cfg : RetryConfig) (op : Nat → ExecResult)
    (rand : Nat → ℚ) (e : PyError)
    (hN : 1 ≤ cfg.max_attempts)
    (hop : op 1 = ExecResult.err e)
    (hstop : cfg.stop_on_exceptions e.cls = true) :
    retryRun cfg op rand
      = ([RetryEvent.invoke 1, RetryEvent.logged (categorize_error e) ErrorSeverity.critical],
         RetryOutcome.raised e) ∧
    numInvocations (retryRun cfg op rand).1 = 1 ∧
    numSleeps (retryRun cfg op rand).1 = 0 := by
  obtain ⟨m, hm⟩ : ∃ m, cfg.max_attempts = m + 1 := ⟨cfg.max_attempts - 1, by omega⟩
  unfold retryRun
  rw [hm, retryGo_succ, hop]
  simp [hstop, numInvocations, numSleeps, invokeWeight, sleepWeight]

/-- Witness for C6: a policy that marks every class as non-retryable, an
operation raising a network error, `max_attempts = 3`. -/
theorem c6_non_retryable_short_circuit_witness :
    retryRun { defaultRetryConfig with stop_on_exceptions := fun _ => true }
        (fun _ => ExecResult.err eNet) (fun _ => 0)
      = ([RetryEvent.invoke 1,
          RetryEvent.logged (categorize_error eNet) ErrorSeverity.critical],
         RetryOutcome.raised eNet) ∧
    numInvocations (retryRun { defaultRetryConfig with stop_on_exceptions := fun _ => true }
        (fun _ => ExecResult.err eNet) (fun _ => 0)).1 = 1 ∧
    numSleeps (retryRun { defaultRetryConfig with stop_on_exceptions := fun _ => true }
        (fun _ => ExecResult.err eNet) (fun _ => 0)).1 = 0 :=
  c6_non_retryable_short_circuit { defaultRetryConfig with stop_on_exceptions := fun _ => true }
    (fun _ => ExecResult.err eNet) (fun _ => 0) eNet (by decide) rfl rfl

/-- C5: for every policy with `base_delay ≥ 0`, `backoff_multiplier ≥ 1`
and `max_delay ≥ 0` (the spec requires the strict versions) and every
attempt index `k ≥ 1`: the pre-jitter delay computed before attempt `k + 1`
is `min(base_delay * backoff_multiplier ^ (k - 1), max_delay)`; it is
non-decreasing in `k`; with jitter enabled the slept delay is the capped
delay times the factor `0.5 + r * 0.5`, which lies in `[1/2, 1]` for the
drawn `r ∈ [0, 1]`; and the slept delay never exceeds `max_delay`. -/
theorem c5_backoff_monotone_bounded (cfg : RetryConfig) (k : Nat) (r : ℚ)
    (hb : 0 ≤ cfg.base_delay) (hm : 1 ≤ cfg.exponential_base) (hM : 0 ≤ cfg.max_delay)
    (hk : 1 ≤ k) (hr0 : 0 ≤ r) (hr1 : r ≤ 1) (hj : cfg.jitter = true) :
    computeDelay cfg k
        = min (cfg.base_delay * cfg.exponential_base ^ (k - 1)) cfg.max_delay ∧
    computeDelay cfg k ≤ computeDelay cfg (k + 1) ∧
    applyJitter cfg (computeDelay cfg k) r = computeDelay cfg k * (1/2 + r * (1/2)) ∧
    1/2 ≤ (1/2 + r * (1/2) : ℚ) ∧ (1/2 + r * (1/2) : ℚ) ≤ 1 ∧
    applyJitter cfg (computeDelay cfg k) r ≤ cfg.max_delay := by
  have hpow : (0 : ℚ) ≤ cfg.exponential_base ^ (k - 1) :=
    pow_nonneg (le_trans zero_le_one hm) _
  have hfac1 : (1/2 + r * (1/2) : ℚ) ≤ 1 := by linarith
  have hd0 : 0 ≤ computeDelay cfg k := le_min (mul_nonneg hb hpow) hM
  have hdM : computeDelay cfg k ≤ cfg.max_delay := min_le_right _ _
  have hjit : applyJitter cfg (computeDelay cfg k) r = computeDelay cfg k * (1/2 + r * (1/2)) := by
    unfold applyJitter
    rw [if_pos hj]
  refine ⟨rfl, ?_, hjit, by linarith, hfac1, ?_⟩
  · unfold computeDelay
    have hple : cfg.exponential_base ^ (k - 1) ≤ cfg.exponential_base ^ (k + 1 - 1) := by
      apply pow_le_pow_right₀ hm
      omega
    exact min_le_min (mul_le_mul_of_nonneg_left hple hb) le_rfl
  · rw [hjit]
    calc computeDelay cfg k * (1/2 + r * (1/2))
        ≤ computeDelay cfg k * 1 := mul_le_mul_of_nonneg_left hfac1 hd0
      _ = computeDelay cfg k := mul_one _
      _ ≤ cfg.max_delay := hdM

/-- Witness for C5 at the default policy, `k = 1`, `r = 0`. -/
theorem c5_backoff_monotone_bounded_witness :
    computeDelay defaultRetryConfig 1
        = min (defaultRetryConfig.base_delay * defaultRetryConfig.exponential_base ^ (1 - 1))
            defaultRetryConfig.max_delay ∧
    computeDelay defaultRetryConfig 1 ≤ computeDelay defaultRetryConfig 2 ∧
    applyJitter defaultRetryConfig (computeDelay defaultRetryConfig 1) 0
        = computeDelay defaultRetryConfig 1 * (1/2 + 0 * (1/2)) ∧
    1/2 ≤ (1/2 + 0 * (1/2) : ℚ) ∧ (1/2 + 0 * (1/2) : ℚ) ≤ 1 ∧
    applyJitter defaultRetryConfig (computeDelay defaultRetryConfig 1) 0
        ≤ defaultRetryConfig.max_delay :=
  c5_backoff_monotone_bounded defaultRetryConfig 1 0
    (by show (0:ℚ) ≤ 1; norm_num) (by show (1:ℚ) ≤ 2; norm_num) (by show (0:ℚ) ≤ 300; norm_num)
    le_rfl le_rfl (by norm_num) rfl

/-- C4, counterexample: under the source's default `RetryConfig`
(`retry_on_exceptions = (Exception,)`, `stop_on_exceptions = ()`), a
`CircuitBreakerOpenError` IS matched by the retryable clause, so a retry
executor receiving only breaker-open rejections performs all 3 default
attempts with 2 backoff sleeps — it does consume retry budget, refuting
the claim's "non-retryable by default". -/
theorem c4_counterexample :
    defaultRetryConfig.retry_on_exceptions ErrClass.circuitBreakerOpen = true ∧
    defaultRetryConfig.stop_on_exceptions ErrClass.circuitBreakerOpen = false ∧
    numInvocations (retryRun defaultRetryConfig
        (fun _ => ExecResult.err circuitBreakerOpenError) (fun _ => 0)).1 = 3 ∧
    numSleeps (retryRun defaultRetryConfig
        (fun _ => ExecResult.err circuitBreakerOpenError) (fun _ => 0)).1 = 2 ∧
    (retryRun defaultRetryConfig
        (fun _ => ExecResult.err circuitBreakerOpenError) (fun _ => 0)).2
      = RetryOutcome.raised circuitBreakerOpenError :=
  ⟨rfl, rfl, by decide, by decide, by decide⟩

/-- C4, amended: the breaker-open rejection is a failure kind
(`CircuitBreakerOpenError`) distinguishable from every wrapped-operation
error class, but under the default retry policy it is retryable, not
non-retryable: a retry executor with the default policy (any
`max_attempts = N ≥ 1`) that receives only breaker-open rejections invokes
the operation all `N` times, consuming the full retry budget, and only then
re-raises the rejection.  Callers must opt in (via `stop_on_exceptions`)
to fail fast. -/
theorem c4_breaker_open_retryable (N : Nat) (rand : Nat → ℚ) (hN : 1 ≤ N) :
    (∀ s, ErrClass.circuitBreakerOpen ≠ ErrClass.other s) ∧
    circuitBreakerOpenError.cls = ErrClass.circuitBreakerOpen ∧
    ({ defaultRetryConfig with max_attempts := N }
        : RetryConfig).retry_on_exceptions ErrClass.circuitBreakerOpen = true ∧
    numInvocations (retryRun { defaultRetryConfig with max_attempts := N }
        (fun _ => ExecResult.err circuitBreakerOpenError) rand).1 = N ∧
    (retryRun { defaultRetryConfig with max_attempts := N }
        (fun _ => ExecResult.err circuitBreakerOpenError) rand).2
      = RetryOutcome.raised circuitBreakerOpenError := by
  obtain ⟨m, rfl⟩ : ∃ m, N = m + 1 := ⟨N - 1, by omega⟩
  have h : retryRun { defaultRetryConfig with max_attempts := m + 1 }
      (fun _ => ExecResult.err circuitBreakerOpenError) rand
      = (failTraceFrom { defaultRetryConfig with max_attempts := m + 1 } rand
           (fun _ => circuitBreakerOpenError) 1 (m + 1),
         RetryOutcome.raised circuitBreakerOpenError) := by
    have h0 := retry_always_fails { defaultRetryConfig with max_attempts := m + 1 }
      (fun _ => circuitBreakerOpenError)
      (fun _ => ExecResult.err circuitBreakerOpenError) rand
      (fun _ => rfl) (fun _ => rfl) (fun _ => rfl) m 1 none
    exact h0
  refine ⟨fun s hcontra => ErrClass.noConfusion hcontra, rfl, rfl, ?_, ?_⟩
  · rw [h]
    exact numInvocations_failTrace { defaultRetryConfig with max_attempts := m + 1 } rand
      (fun _ => circuitBreakerOpenError) (m + 1) 1
  · rw [h]

/-- A streak of failing calls against a closed breaker, of exactly the
length needed to reach the failure threshold, opens the breaker, leaves the
failure count at the threshold, and records the last failure time. -/
theorem failCalls_opens (e : PyError) :
    ∀ (ts : List Nat) (s : CircuitBreaker), s.state = BreakerState.closed →
      s.failure_count + ts.length = s.failure_threshold → ts ≠ [] →
      (failCalls s e ts).state = BreakerState.opened ∧
      (failCalls s e ts).failure_count = s.failure_threshold ∧
      (failCalls s e ts).last_failure_time = ts.getLast? ∧
      (failCalls s e ts).failure_threshold = s.failure_threshold ∧
      (failCalls s e ts).recovery_timeout = s.recovery_timeout := by
  intro ts
  induction ts with
  | nil => intro s _ _ hne; exact absurd rfl hne
  | cons t rest ih =>
    intro s hclosed hcount _
    cases rest with
    | nil =>
      have h1 : s.failure_threshold ≤ s.failure_count + 1 := by
        simp only [List.length_cons, List.length_nil] at hcount
        omega
      simp only [failCalls, List.foldl, CircuitBreaker.call, hclosed,
        CircuitBreaker.run_protected, CircuitBreaker.on_failure]
      simp [h1]
      simp only [List.length_cons, List.length_nil] at hcount
      omega
    | cons t2 rest2 =>
      have hlt : ¬(s.failure_threshold ≤ s.failure_count + 1) := by
        simp only [List.length_cons] at hcount
        omega
      have hstep : (s.call t (OpOutcome.throws e)).post
          = { s with failure_count := s.failure_count + 1, last_failure_time := some t } := by
        simp only [CircuitBreaker.call, hclosed, CircuitBreaker.run_protected,
          CircuitBreaker.on_failure]
        simp [hlt]
      have happ := ih { s with failure_count := s.failure_count + 1, last_failure_time := some t }
        hclosed
        (by simp only [List.length_cons] at hcount ⊢; omega)
        (by simp)
      have hfold : failCalls s e (t :: t2 :: rest2)
          = failCalls { s with failure_count := s.failure_count + 1,
                               last_failure_time := some t } e (t2 :: rest2) := by
        simp only [failCalls, List.foldl, hstep]
      rw [hfold, List.getLast?_cons_cons]
      exact happ

/-- C2: a fresh breaker with `failure_threshold = th ≥ 1` subjected to `th`
consecutive failed calls (no intervening success) ends open with its
failure count at the threshold, and a subsequent `call()` made before the
recovery timeout has elapsed raises the distinguished
`CircuitBreakerOpenError`, leaves the breaker unchanged, and never invokes
the wrapped operation (whatever the operation would have done). -/
theorem c2_breaker_opens (th timeout : Nat) (ts : List Nat) (tlast : Nat) (e : PyError)
    (now : Nat) (op : OpOutcome)
    (hth : 1 ≤ th) (hlen : ts.length = th) (hlast : ts.getLast? = some tlast)
    (hnow1 : tlast ≤ now) (hnow2 : now < tlast + timeout) :
    (failCalls (CircuitBreaker.init th timeout) e ts).state = BreakerState.opened ∧
    (failCalls (CircuitBreaker.init th timeout) e ts).failure_count = th ∧
    (failCalls (CircuitBreaker.init th timeout) e ts).last_failure_time = some tlast ∧
    ((failCalls (CircuitBreaker.init th timeout) e ts).call now op).outcome
      = CallOutcome.raised circuitBreakerOpenError ∧
    ((failCalls (CircuitBreaker.init th timeout) e ts).call now op).invoked = false ∧
    ((failCalls (CircuitBreaker.init th timeout) e ts).call now op).post
      = failCalls (CircuitBreaker.init th timeout) e ts := by
  have hne : ts ≠ [] := by
    intro hx
    rw [hx] at hlen
    simp at hlen
    omega
  obtain ⟨hst, hcnt, hlft, hthr, hrt⟩ :=
    failCalls_opens e ts (CircuitBreaker.init th timeout) rfl
      (by simpa [CircuitBreaker.init] using hlen) hne
  rw [hlast] at hlft
  have hreset : (failCalls (CircuitBreaker.init th timeout) e ts).should_attempt_reset now
      = false := by
    rw [CircuitBreaker.should_attempt_reset, hlft]
    have hmod : (now - tlast) % 86400 ≤ now - tlast := Nat.mod_le _ _
    have hto : (failCalls (CircuitBreaker.init th timeout) e ts).recovery_timeout = timeout :=
      hrt
    rw [hto]
    simp only [decide_eq_false_iff_not]
    omega
  have hcall : (failCalls (CircuitBreaker.init th timeout) e ts).call now op
      = ⟨CallOutcome.raised circuitBreakerOpenError,
         failCalls (CircuitBreaker.init th timeout) e ts, false⟩ := by
    rw [CircuitBreaker.call, if_pos hst, hreset]
    simp
  exact ⟨hst, hcnt, hlft, by rw [hcall], by rw [hcall], by rw [hcall]⟩

/-- Witness for C2: threshold 2, timeout 60, failures at times 0 and 1, a
subsequent call at time 30 with an operation that would have succeeded. -/
theorem c2_breaker_opens_witness :
    (failCalls (CircuitBreaker.init 2 60) eNet [0, 1]).state = BreakerState.opened ∧
    (failCalls (CircuitBreaker.init 2 60) eNet [0, 1]).failure_count = 2 ∧
    (failCalls (CircuitBreaker.init 2 60) eNet [0, 1]).last_failure_time = some 1 ∧
    ((failCalls (CircuitBreaker.init 2 60) eNet [0, 1]).call 30 (OpOutcome.ok 5)).outcome
      = CallOutcome.raised circuitBreakerOpenError ∧
    ((failCalls (CircuitBreaker.init 2 60) eNet [0, 1]).call 30 (OpOutcome.ok 5)).invoked
      = false ∧
    ((failCalls (CircuitBreaker.init 2 60) eNet [0, 1]).call 30 (OpOutcome.ok 5)).post
      = failCalls (CircuitBreaker.init 2 60) eNet [0, 1] :=
  c2_breaker_opens 2 60 [0, 1] 1 eNet 30 (OpOutcome.ok 5)
    (by omega) rfl rfl (by omega) (by omega)

/-- C3, code-bug evidence.  `c3OpenBreaker` opened at time 0 with
`recovery_timeout = 60`.  At time 86400 (exactly one day later) the elapsed
time `86400 - 0` is far beyond the 60-second recovery timeout, so the claim
(and the source's own docstrings, "check if enough time has passed to
attempt reset") require the next `call()` to move to half-open and let a
probe through; but the source compares `timedelta.seconds`, which discards
whole days (`86400 % 86400 = 0 < 60`), so the call is rejected with
`CircuitBreakerOpenError`, the operation is not invoked, and the breaker
stays open.  The same call made 60 seconds after the failure (within the
first day) does behave as the claim says: the probe runs, a success closes
the breaker and resets the count, a failure re-opens it and refreshes
`last_failure_time`. -/
theorem c3_recovery_day_wrap :
    c3OpenBreaker.state = BreakerState.opened ∧
    c3OpenBreaker.last_failure_time = some 0 ∧
    c3OpenBreaker.recovery_timeout ≤ 86400 - 0 ∧
    (c3OpenBreaker.call 86400 (OpOutcome.ok 7)).outcome
      = CallOutcome.raised circuitBreakerOpenError ∧
    (c3OpenBreaker.call 86400 (OpOutcome.ok 7)).invoked = false ∧
    (c3OpenBreaker.call 86400 (OpOutcome.ok 7)).post.state = BreakerState.opened ∧
    (c3OpenBreaker.call 60 (OpOutcome.ok 7)).invoked = true ∧
    (c3OpenBreaker.call 60 (OpOutcome.ok 7)).post.state = BreakerState.closed ∧
    (c3OpenBreaker.call 60 (OpOutcome.ok 7)).post.failure_count = 0 ∧
    (c3OpenBreaker.call 60 (OpOutcome.throws eParse)).post.state = BreakerState.opened ∧
    (c3OpenBreaker.call 60 (OpOutcome.throws eParse)).post.last_failure_time = some 60 := by
  decide

/-- Every single call step preserves the breaker invariant. -/
theorem breakerStep_inv (s : CircuitBreaker) (ev : Nat × OpOutcome) (h : BreakerInv s) :
    BreakerInv (breakerStep s ev) := by
  obtain ⟨t, op⟩ := ev
  unfold BreakerInv at h ⊢
  unfold breakerStep CircuitBreaker.call CircuitBreaker.run_protected
    CircuitBreaker.on_success CircuitBreaker.on_failure
  by_cases hop : s.state = BreakerState.opened
  · rw [if_pos hop]
    by_cases hres : s.should_attempt_reset t = true
    · rw [if_pos hres]
      cases op with
      | ok v => intro hx; simp at hx
      | throws e =>
        intro hx
        have hcnt : s.failure_threshold ≤ s.failure_count := (h (Or.inl hop)).2
        simp only []
        constructor
        · split <;> simp
        · split <;> simp <;> omega
    · rw [if_neg hres]
      exact h
  · rw [if_neg hop]
    cases op with
    | ok v => intro hx; simp at hx
    | throws e =>
      intro hx
      constructor
      · by_cases hle : s.failure_threshold ≤ s.failure_count + 1
        · simp [hle]
        · simp [hle]
      · by_cases hle : s.failure_threshold ≤ s.failure_count + 1
        · simp [hle]
        · exfalso
          simp only [hle, if_false] at hx
          rcases hx with hx | hx
          · exact hop hx
          · have := (h (Or.inr hx)).2
            omega

/-- The breaker invariant holds in every state reachable from a fresh
breaker. -/
theorem breakerRun_inv (th timeout : Nat) (tr : List (Nat × OpOutcome)) :
    BreakerInv (breakerRun th timeout tr) := by
  have hgen : ∀ (l : List (Nat × OpOutcome)) (s : CircuitBreaker),
      BreakerInv s → BreakerInv (l.foldl breakerStep s) := by
    intro l
    induction l with
    | nil => intro s hs; exact hs
    | cons ev rest ih => intro s hs; exact ih _ (breakerStep_inv s ev hs)
  exact hgen tr (CircuitBreaker.init th timeout)
    (fun hx => by rcases hx with hx | hx <;> exact BreakerState.noConfusion hx)

/-- C9: in every breaker state reachable from the fresh
`(closed, failure_count = 0, last_failure_time = None)` state by any call
history, if the state is open or half-open then `last_failure_time` is not
`None` and `failure_count ≥ failure_threshold`; in particular the
`last_failure_time is None` branch of `_should_attempt_reset` (which is
only consulted while the state is open) is dead once the breaker has
opened. -/
theorem c9_breaker_state_invariant (th timeout : Nat) (tr : List (Nat × OpOutcome))
    (h : (breakerRun th timeout tr).state = BreakerState.opened ∨
         (breakerRun th timeout tr).state = BreakerState.halfOpen) :
    (breakerRun th timeout tr).last_failure_time ≠ none ∧
    (breakerRun th timeout tr).failure_threshold
      ≤ (breakerRun th timeout tr).failure_count :=
  breakerRun_inv th timeout tr h

/-- Witness for C9: one failing call against a threshold-1 breaker reaches
the open state. -/
theorem c9_breaker_state_invariant_witness :
    (breakerRun 1 60 [(0, OpOutcome.throws eNet)]).last_failure_time ≠ none ∧
    (breakerRun 1 60 [(0, OpOutcome.throws eNet)]).failure_threshold
      ≤ (breakerRun 1 60 [(0, OpOutcome.throws eNet)]).failure_count :=
  c9_breaker_state_invariant 1 60 [(0, OpOutcome.throws eNet)] (Or.inl (by decide))

/-- Witness for the amended C4 at `N = 3`. -/
theorem c4_breaker_open_retryable_witness :
    (∀ s, ErrClass.circuitBreakerOpen ≠ ErrClass.other s) ∧
    circuitBreakerOpenError.cls = ErrClass.circuitBreakerOpen ∧
    ({ defaultRetryConfig with max_attempts := 3 }
        : RetryConfig).retry_on_exceptions ErrClass.circuitBreakerOpen = true ∧
    numInvocations (retryRun { defaultRetryConfig with max_attempts := 3 }
        (fun _ => ExecResult.err circuitBreakerOpenError) (fun _ => 0)).1 = 3 ∧
    (retryRun { defaultRetryConfig with max_attempts := 3 }
        (fun _ => ExecResult.err circuitBreakerOpenError) (fun _ => 0)).2
      = RetryOutcome.raised circuitBreakerOpenError :=
  c4_breaker_open_retryable 3 (fun _ => 0) (by omega)

/-- C7: `categorize_error` lower-cases the error's message and type name
and tests the categories' keyword lists in the fixed priority order
(network, rate_limit, authentication, parsing, validation, resource),
returning the first category with any matching substring and `unknown` when
none matches — it coincides with the spec-side first-match classifier
`specClassify` on every error.  Concretely, for `eTwoCats` (whose text
carries network, parsing and validation keywords) the earliest category,
`network`, wins; and a keyword-free error classifies as `unknown`. -/
theorem c7_classification_priority :
    (∀ e : PyError, categorize_error e = specClassify e) ∧
    categorize_error eTwoCats = ErrorCategory.network ∧
    specCategoryMatches eTwoCats ErrorCategory.network = true ∧
    specCategoryMatches eTwoCats ErrorCategory.parsing = true ∧
    specCategoryMatches eTwoCats ErrorCategory.validation = true ∧
    categorize_error eNoCat = ErrorCategory.unknown := by
  refine ⟨?_, by decide, by decide, by decide, by decide, by decide⟩
  intro e
  by_cases h1 : networkPatterns.any
      (patternHit (lowerList e.msg.data) (lowerList e.typeName.data)) = true <;>
  by_cases h2 : rateLimitPatterns.any
      (patternHit (lowerList e.msg.data) (lowerList e.typeName.data)) = true <;>
  by_cases h3 : authPatterns.any
      (patternHit (lowerList e.msg.data) (lowerList e.typeName.data)) = true <;>
  by_cases h4 : parsingPatterns.any
      (patternHit (lowerList e.msg.data) (lowerList e.typeName.data)) = true <;>
  by_cases h5 : validationPatterns.any
      (patternHit (lowerList e.msg.data) (lowerList e.typeName.data)) = true <;>
  by_cases h6 : resourcePatterns.any
      (patternHit (lowerList e.msg.data) (lowerList e.typeName.data)) = true <;>
  simp [categorize_error, specClassify, errorPatterns, specPriorityOrder, findCategory,
    List.find?, specCategoryMatches, categoryKeywords, h1, h2, h3, h4, h5, h6]

/-- C8: on a fresh ledger, logging 3 errors classified `network` and 2
classified `parsing` for source `"X"` makes the statistics snapshot's
`by_scraper["X"]` equal `{network: 3, parsing: 2}` with a total of 5; on
every ledger state the total equals the sum of all per-source per-category
counters; and taking the snapshot returns the state unchanged (read-only,
never mutating a counter). -/
theorem c8_ledger_aggregation :
    (ErrorHandler.get_error_statistics c8Scenario).1.by_scraper
      = [("X", [(ErrorCategory.network, 3), (ErrorCategory.parsing, 2)])] ∧
    (ErrorHandler.get_error_statistics c8Scenario).1.total_errors = 5 ∧
    (∀ st : ErrorHandlerState,
      (ErrorHandler.get_error_statistics st).1.total_errors
        = (((ErrorHandler.get_error_statistics st).1.by_scraper.map
            (fun p => (p.2.map (fun q => q.2)).sum)).sum)) ∧
    (∀ st : ErrorHandlerState, (ErrorHandler.get_error_statistics st).2 = st) :=
  ⟨by decide, by decide, fun st => rfl, fun st => rfl⟩

/-- C10: asking the performance monitor for the summary of a source with no
recorded operations — a never-seen name or one whose list is empty — yields
the empty summary; the modelled `get_performance_summary` is a total
function, so no exception is possible. -/
theorem c10_empty_summary (st : PerformanceMonitorState) (name : String)
    (h : (st.metrics.lookup name).getD [] = []) :
    PerformanceMonitor.get_performance_summary st (some name) = [] := by
  show buildSummary [(name, (st.metrics.lookup name).getD [])] = []
  rw [h]
  rfl

/-- Witness for C10: a monitor that has seen one (empty) source, asked
about a never-seen source. -/
theorem c10_empty_summary_witness :
    PerformanceMonitor.get_performance_summary ⟨[("seen", [])]⟩ (some "unknown_source") = [] :=
  c10_empty_summary ⟨[("seen", [])]⟩ "unknown_source" rfl
